import Mathlib

/-!
Verification development for the AIResumeAgent resume-screening backend.

The definitions below are a shallow embedding of the Python sources:

* `services/ai_screening_service.py` — the fit-score aggregation
  (`_calculate_fit_score`) and the skill-match failure fallback
  (`_analyze_skills_match`, `except` branch);
* `services/cosmos_db_service.py` — the batch-progress tracker
  (`update_screening_job_progress_by_job_id`,
  `get_comprehensive_screening_status`, `initialize_or_increment_batch_total`);
* `main.py` — the `screen_resumes` endpoint together with the `Settings`
  object from `config.py`.

Python numbers are modelled exactly: counters are `ℕ`, skill weights are `ℤ`
(job uploads carry integer weights), score arithmetic is `ℚ`, and Python's
`int(...)` truncation toward zero is `pyInt`.  Timestamps are abstracted to a
`ℕ` supplied by the caller (`datetime.utcnow()` only ever produces a fresh
opaque value).  Blocking I/O collaborators (Cosmos, blob store, the two LLM
oracles) are modelled by passing their observed results as explicit inputs.
-/

namespace AIResumeAgent

/-- Python `int(x)` applied to an exact rational: truncation toward zero. -/
def pyInt (q : ℚ) : ℤ := if 0 ≤ q then ⌊q⌋ else ⌈q⌉

/-! ## Fit-score aggregation (`ai_screening_service.py`) -/

/-- One entry of a job's `must_have_skills` / `nice_to_have_skills` list:
a dict with a `"skill"` key and an optional integer `"weight"` key
(`skill.get("weight", d)` is `weight.getD d`). -/
structure SkillSpec where
  skill : String
  weight : Option ℤ
deriving DecidableEq

/-- One entry of the skill-matcher output lists
(`matched_must_have_list` / `matched_nice_to_have_list`). -/
structure MatchedSkill where
  skill : String
  found_in_resume : Bool
  proficiency_level : Option String := none
  years_of_experience : Option String := none
deriving DecidableEq

/-- The `skills_analysis` dict built by `_analyze_skills_match`. -/
structure SkillsAnalysis where
  must_have_matched : ℕ
  must_have_total : ℕ
  nice_to_have_matched : ℕ
  nice_to_have_total : ℕ
  matched_must_have_list : List MatchedSkill
  matched_nice_to_have_list : List MatchedSkill
deriving DecidableEq

/-- The `except` branch of `_analyze_skills_match` (lines 238–247): when the
SkillMatcher oracle fails, an empty match result is returned instead of an
error. -/
def analyzeSkillsMatchFailure (must_have_skills nice_to_have_skills : List SkillSpec) :
    SkillsAnalysis :=
  { must_have_matched := 0
    must_have_total := must_have_skills.length
    nice_to_have_matched := 0
    nice_to_have_total := nice_to_have_skills.length
    matched_must_have_list := []
    matched_nice_to_have_list := [] }

/-- Embedding of `sum(skill.get("weight", d) for skill in skills)`. -/
def totalWeight (d : ℤ) (skills : List SkillSpec) : ℤ :=
  (skills.map (fun s => s.weight.getD d)).sum

/-- Embedding of `next((s for s in skills if s["skill"] == name), None)`. -/
def findSkill (skills : List SkillSpec) (name : String) : Option SkillSpec :=
  skills.find? (fun s => s.skill == name)

/-- The matched-weight accumulation loop of `_calculate_fit_score`
(lines 263–280): each match entry with `found_in_resume` whose name resolves
to a skill dict contributes that dict's weight (default `d`). -/
def matchedWeight (d : ℤ) (skills : List SkillSpec) (ms : List MatchedSkill) : ℤ :=
  (ms.map (fun m =>
    if m.found_in_resume then
      match findSkill skills m.skill with
      | some s => s.weight.getD d
      | none => 0
    else 0)).sum

/-- The `high_weight_skills` list built inside the same loop: names of found
must-have matches whose resolved weight is `>= 8`, in match-list order. -/
def highWeightSkills (must_have_skills : List SkillSpec) (ms : List MatchedSkill) :
    List String :=
  ms.filterMap (fun m =>
    if m.found_in_resume then
      match findSkill must_have_skills m.skill with
      | some s => if 8 ≤ s.weight.getD 5 then some m.skill else none
      | none => none
    else none)

/-- Embedding of `must_have_score = (matched / total * 100)
if total_must_have_weight > 0 else 0` — must-have tier uses default weight 5. -/
def mustHaveScore (must_have_skills : List SkillSpec) (ms : List MatchedSkill) : ℚ :=
  if 0 < totalWeight 5 must_have_skills then
    (matchedWeight 5 must_have_skills ms : ℚ) / (totalWeight 5 must_have_skills : ℚ) * 100
  else 0

/-- Nice-to-have tier score — the nice-to-have tier uses default weight 3. -/
def niceToHaveScore (nice_to_have_skills : List SkillSpec) (ms : List MatchedSkill) : ℚ :=
  if 0 < totalWeight 3 nice_to_have_skills then
    (matchedWeight 3 nice_to_have_skills ms : ℚ) / (totalWeight 3 nice_to_have_skills : ℚ) * 100
  else 0

/-- Embedding of `skills_score = must_have_score * 0.85 + nice_to_have_score * 0.15`. -/
def skillsScore (sa : SkillsAnalysis) (must_have_skills nice_to_have_skills : List SkillSpec) : ℚ :=
  mustHaveScore must_have_skills sa.matched_must_have_list * (85 / 100)
    + niceToHaveScore nice_to_have_skills sa.matched_nice_to_have_list * (15 / 100)

/-- The `fit_score` dict returned by `_calculate_fit_score`. -/
structure FitScore where
  score : ℤ
  weighted_skills_contributing : List String
deriving DecidableEq

/-- Shallow embedding of `_calculate_fit_score` (lines 249–328).  The holistic
LLM oracle is an input: `some q` models a reply whose JSON parsed with
`ai_fit_score = q` present, `none` models the `except: ai_score = 50` path
(an absent `ai_fit_score` key also defaults to 50, hence `getD 50`).
`final_score = min(100, max(0, int(skills_score*0.70 + ai_score*0.30)))`,
`weighted_skills_contributing = high_weight_skills[:3]`. -/
def calcFitScore (sa : SkillsAnalysis) (must_have_skills nice_to_have_skills : List SkillSpec)
    (aiResponse : Option ℚ) : FitScore :=
  let ai_score := aiResponse.getD 50
  let final0 := pyInt (skillsScore sa must_have_skills nice_to_have_skills * (70 / 100)
    + ai_score * (30 / 100))
  { score := min 100 (max 0 final0)
    weighted_skills_contributing := (highWeightSkills must_have_skills sa.matched_must_have_list).take 3 }

/-! ## Batch-progress tracker (`cosmos_db_service.py`)

The tracker is one Cosmos document per job.  Documents are dicts read with
`.get(key, 0)` / `.get(key, [])`, so a field absent from an older document
revision behaves exactly like the default value; the structure below therefore
stores every field with those defaults already applied. -/

/-- One entry appended to `resume_statuses` (the per-filename dedup list). -/
structure StatusEntry where
  filename : String
  status : String
  processed_at : ℕ
  screening_id : Option String
deriving DecidableEq

/-- A screening-job tracker document, fields as written by
`initialize_or_increment_batch_total` / `update_screening_job_progress_by_job_id`. -/
structure Tracker where
  current_batch_total : ℕ
  current_batch_processed : ℕ
  current_batch_successful : ℕ
  current_batch_failed : ℕ
  processed_resumes : ℕ
  successful_resumes : ℕ
  failed_resumes : ℕ
  resume_statuses : List StatusEntry
  stored_status : String
  batch_start_time : Option ℕ
  created_at : ℕ
  updated_at : ℕ
deriving DecidableEq

/-- The fresh tracker document created by `initialize_or_increment_batch_total`
(lines 1366–1382) when no tracker exists: the current blob count for the job's
prefix is locked in as `current_batch_total`. -/
def freshTracker (blobCount : ℕ) (now : ℕ) : Tracker :=
  { current_batch_total := blobCount
    current_batch_processed := 0
    current_batch_successful := 0
    current_batch_failed := 0
    processed_resumes := 0
    successful_resumes := 0
    failed_resumes := 0
    resume_statuses := []
    stored_status := "processing"
    batch_start_time := some now
    created_at := now
    updated_at := now }

/-- Shallow embedding of `update_screening_job_progress_by_job_id`
(lines 1026–1101), the `recordOutcome` operation of the spec: increments the
current-batch and all-time counters unconditionally and appends a
`resume_statuses` entry.  The source performs no duplicate-filename check
before doing so. -/
def recordOutcome (t : Tracker) (resume_filename status : String)
    (screening_id : Option String) (now : ℕ) : Tracker :=
  { t with
    current_batch_processed := t.current_batch_processed + 1
    current_batch_successful :=
      t.current_batch_successful + (if status == "success" then 1 else 0)
    current_batch_failed :=
      t.current_batch_failed + (if status == "success" then 0 else 1)
    processed_resumes := t.processed_resumes + 1
    successful_resumes :=
      t.successful_resumes + (if status == "success" then 1 else 0)
    failed_resumes :=
      t.failed_resumes + (if status == "success" then 0 else 1)
    resume_statuses :=
      t.resume_statuses ++ [⟨resume_filename, status, now, screening_id⟩]
    updated_at := now }

/-- Shallow embedding of `initialize_or_increment_batch_total`
(lines 1316–1446).  `blobCount` is the number of non-folder blobs currently
under the job's prefix (the durable-store enumeration both branches perform).
If no tracker exists, one is created with `current_batch_total := blobCount`.
If one exists and the previous batch is complete
(`current_batch_total > 0 ∧ current_batch_processed ≥ current_batch_total`)
and `blobCount > current_batch_processed`, the batch counters are reset with
`current_batch_total := blobCount - current_batch_processed`.  Note the
baseline subtracted is `current_batch_processed`, not the all-time
`processed_resumes`. -/
def initOrIncrementBatch (existing : Option Tracker) (blobCount : ℕ) (now : ℕ) : Tracker :=
  match existing with
  | none => freshTracker blobCount now
  | some t =>
    if 0 < t.current_batch_total ∧ t.current_batch_total ≤ t.current_batch_processed then
      if t.current_batch_processed < blobCount then
        { t with
          current_batch_total := blobCount - t.current_batch_processed
          current_batch_processed := 0
          current_batch_successful := 0
          current_batch_failed := 0
          batch_start_time := some now
          updated_at := now }
      else t
    else t

/-- The `current_batch` block of the dict returned by
`get_comprehensive_screening_status` (the spec's progress snapshot). -/
structure CurrentBatch where
  total_uploaded_in_queue : ℕ
  processed : ℕ
  successful : ℕ
  failed : ℕ
  remaining : ℤ
  status : String
  progress_percentage : ℤ
  batch_start_time : Option ℕ
deriving DecidableEq

/-- Shallow embedding of the `current_batch` computation in
`get_comprehensive_screening_status` (lines 1230–1293): when a tracker exists
and `current_batch_total > 0`, `remaining = max(0, total - processed)`,
`progress_percentage = min(100, int(processed / total * 100))`, and the
derived status is `completed` (with percentage forced to 100) when
`remaining == 0`, `processing` when `processed > 0`, else `pending`.
Otherwise every counter is reported as 0 with status `no_resumes_in_queue`
(that branch builds a dict without a `batch_start_time` key, modelled `none`). -/
def currentBatchSnapshot (tracker : Option Tracker) : CurrentBatch :=
  match tracker with
  | some t =>
    if 0 < t.current_batch_total then
      let remaining : ℤ :=
        max 0 ((t.current_batch_total : ℤ) - (t.current_batch_processed : ℤ))
      let pct : ℤ :=
        min 100 (pyInt ((t.current_batch_processed : ℚ) / (t.current_batch_total : ℚ) * 100))
      if remaining = 0 then
        ⟨t.current_batch_total, t.current_batch_processed, t.current_batch_successful,
          t.current_batch_failed, remaining, "completed", 100, t.batch_start_time⟩
      else if 0 < t.current_batch_processed then
        ⟨t.current_batch_total, t.current_batch_processed, t.current_batch_successful,
          t.current_batch_failed, remaining, "processing", pct, t.batch_start_time⟩
      else
        ⟨t.current_batch_total, t.current_batch_processed, t.current_batch_successful,
          t.current_batch_failed, remaining, "pending", pct, t.batch_start_time⟩
    else ⟨0, 0, 0, 0, 0, "no_resumes_in_queue", 0, none⟩
  | none => ⟨0, 0, 0, 0, 0, "no_resumes_in_queue", 0, none⟩

/-- Tracker states reachable through the tracker operations, starting from the
document `initialize_or_increment_batch_total` creates for the first batch. -/
inductive ReachableTracker : Tracker → Prop
  | init (blobCount now : ℕ) : ReachableTracker (freshTracker blobCount now)
  | record (t : Tracker) (resume_filename status : String) (screening_id : Option String)
      (now : ℕ) : ReachableTracker t →
      ReachableTracker (recordOutcome t resume_filename status screening_id now)
  | newBatch (t : Tracker) (blobCount now : ℕ) : ReachableTracker t →
      ReachableTracker (initOrIncrementBatch (some t) blobCount now)

/-! ## The `screen_resumes` endpoint (`main.py`, lines 519–761) -/

/-- A raised `fastapi.HTTPException`. -/
structure HTTPError where
  status_code : ℕ
  detail : String
deriving DecidableEq

/-- The claim-relevant subset of a persisted `CandidateReport`
(`models.py`; the remaining fields are descriptive payload that the
endpoint control flow never inspects). -/
structure CandidateReport where
  candidate_name : String
  resume_filename : String
  fit_score : FitScore
deriving DecidableEq

/-- The job document returned by `get_job_description`. -/
structure JobData where
  job_id : String
  job_description_text : String
  must_have_skills : List SkillSpec
  nice_to_have_skills : List SkillSpec
deriving DecidableEq

/-- One element of `request.resumes` together with the outcome of each
blocking step the loop body performs on it:
`validation` is `some e` when the pre-upload steps (data-URI parsing, file
type detection, base64 decoding, size check) raise `HTTPException e` — such
an exception is re-raised and aborts the whole request;
`parsedText` is `none` when `document_parser.parse_document` raises
(caught, the loop continues with the next resume);
`screening` is `none` when `ai_service.screen_candidate` or the Cosmos save
raises (also caught and skipped), otherwise the report that is persisted. -/
structure ResumeItem where
  filename : String
  validation : Option HTTPError
  parsedText : Option String
  screening : Option CandidateReport
deriving DecidableEq

/-- Externally visible writes performed while processing a batch. -/
inductive Effect where
  | upload (path : String)
  | save (report : CandidateReport)
deriving DecidableEq

/-- One iteration of the `for idx, resume_data in enumerate(request.resumes)`
loop body: (exception re-raised if any, effects performed, report appended if
any).  The blob upload (line 669) happens before parsing (line 678), so an
unparsable resume is still uploaded. -/
def processOne (job_id : String) (item : ResumeItem) :
    Option HTTPError × List Effect × Option CandidateReport :=
  match item.validation with
  | some e => (some e, [], none)
  | none =>
    let uploaded := [Effect.upload (job_id ++ "/" ++ item.filename)]
    match item.parsedText with
    | none => (none, uploaded, none)
    | some _ =>
      match item.screening with
      | none => (none, uploaded, none)
      | some r => (none, uploaded ++ [Effect.save r], some r)

/-- The whole per-resume loop: stops at the first re-raised `HTTPException`,
otherwise accumulates effects and the `candidate_reports` list. -/
def runBatch (job_id : String) : List ResumeItem →
    Option HTTPError × List Effect × List CandidateReport
  | [] => (none, [], [])
  | item :: rest =>
    match processOne job_id item with
    | (some e, effects, _) => (some e, effects, [])
    | (none, effects, r?) =>
      let (e?, effects2, reports) := runBatch job_id rest
      (e?, effects ++ effects2, r?.toList ++ reports)

/-- The `Settings` object of `config.py`.  The class defines
`MAX_FILE_SIZE_MB`, `MIN_FIT_SCORE_FOR_INTERVIEW` and
`TOP_SKILLS_FOR_DEPTH_ANALYSIS`, but declares no `MAX_RESUMES_PER_BATCH`
field, so `settings.MAX_RESUMES_PER_BATCH` raises `AttributeError`;
the optional field is therefore `none`. -/
structure Settings where
  MAX_FILE_SIZE_MB : ℕ
  MIN_FIT_SCORE_FOR_INTERVIEW : ℕ
  TOP_SKILLS_FOR_DEPTH_ANALYSIS : ℕ
  MAX_RESUMES_PER_BATCH : Option ℕ
deriving DecidableEq

/-- The `settings = Settings()` singleton built from `config.py`. -/
def settingsModel : Settings :=
  { MAX_FILE_SIZE_MB := 10
    MIN_FIT_SCORE_FOR_INTERVIEW := 60
    TOP_SKILLS_FOR_DEPTH_ANALYSIS := 6
    MAX_RESUMES_PER_BATCH := none }

/-- The successful `ResumeScreeningResponse`. -/
structure ScreeningResponse where
  job_id : String
  total_resumes_processed : ℕ
  candidates : List CandidateReport
deriving DecidableEq

/-- Shallow embedding of the `screen_resumes` endpoint (`main.py` 519–761),
returning the HTTP outcome and the list of durable writes performed.
Order of checks as in the source: empty-batch check (line 556), batch-size
check (line 562, which evaluates `settings.MAX_RESUMES_PER_BATCH` — an
`AttributeError` when the field is absent, caught by the outer handler and
re-raised as HTTP 500), job lookup (line 569), then the per-resume loop;
afterwards, an empty `candidate_reports` list raises HTTP 500
("Failed to process any resumes..."). -/
def screenResumes (jobId : String) (jobData : Option JobData) (items : List ResumeItem) :
    Except HTTPError ScreeningResponse × List Effect :=
  match items with
  | [] => (.error ⟨400, "At least one resume is required"⟩, [])
  | _ =>
    match settingsModel.MAX_RESUMES_PER_BATCH with
    | none =>
      (.error ⟨500, "Settings object has no attribute MAX_RESUMES_PER_BATCH"⟩, [])
    | some maxBatch =>
      if maxBatch < items.length then
        (.error ⟨400, "Maximum " ++ toString maxBatch ++ " resumes allowed per batch"⟩, [])
      else
        match jobData with
        | none => (.error ⟨404, "Job description not found or access denied"⟩, [])
        | some _ =>
          match runBatch jobId items with
          | (some e, effects, _) => (.error e, effects)
          | (none, effects, reports) =>
            match reports with
            | [] =>
              (.error ⟨500,
                "Failed to process any resumes. Please check file formats and try again."⟩,
                effects)
            | _ => (.ok ⟨jobId, reports.length, reports⟩, effects)

/-! ## Concrete inputs used by the claims -/

/-- Must-have skills of the spec's concrete scoring scenario: Python:8, SQL:8. -/
def mustC3 : List SkillSpec := [⟨"Python", some 8⟩, ⟨"SQL", some 8⟩]

/-- Nice-to-have skills of the concrete scoring scenario: Docker:5. -/
def niceC3 : List SkillSpec := [⟨"Docker", some 5⟩]

/-- Skill-match result of the concrete scoring scenario: only Python matched. -/
def saC3 : SkillsAnalysis :=
  { must_have_matched := 1, must_have_total := 2
    nice_to_have_matched := 0, nice_to_have_total := 1
    matched_must_have_list := [⟨"Python", true, none, none⟩, ⟨"SQL", false, none, none⟩]
    matched_nice_to_have_list := [⟨"Docker", false, none, none⟩] }

/-! ## Claim C3 — final-score formula and the concrete 48-vs-47 scenario -/

/-- Claim C3 counterexample.  In the spec's concrete scenario (must-have
Python:8 and SQL:8, nice-to-have Docker:5, only Python matched, holistic
score 60) the code yields `int(42.5*0.70 + 60*0.30) = int(47.75) = 47`,
whereas the claim's formula `round(skills_score*0.70 + holistic*0.30)`
yields 48: the source truncates with `int(...)`, it does not round. -/
theorem c3_counterexample :
    (calcFitScore saC3 mustC3 niceC3 (some 60)).score = 47 ∧
    min 100 (max 0 (round (skillsScore saC3 mustC3 niceC3 * (70 / 100) + 60 * (30 / 100)))) = 48 ∧
    (47 : ℤ) ≠ 48 := by
  refine ⟨?_, ?_, by decide⟩
  · norm_num [calcFitScore, skillsScore, mustHaveScore, niceToHaveScore, totalWeight,
      matchedWeight, findSkill, pyInt, mustC3, niceC3, saC3]
  · norm_num [skillsScore, mustHaveScore, niceToHaveScore, totalWeight, matchedWeight,
      findSkill, mustC3, niceC3, saC3, round_eq]

/-- Claim C3 (amended): the final fit score equals
`int(skills_score × 0.70 + holistic_score × 0.30)` — truncation toward zero,
not rounding — clamped to [0,100], with
`skills_score = must_have_tier_score × 0.85 + nice_to_have_tier_score × 0.15`;
in the concrete scenario (`must_have_tier_score = 50`,
`nice_to_have_tier_score = 0`, `skills_score = 42.5`, holistic 60) the final
score is 47, not 48. -/
theorem c3_amended (sa : SkillsAnalysis) (must nice : List SkillSpec) (ai : ℚ) :
    (calcFitScore sa must nice (some ai)).score =
      min 100 (max 0 (pyInt (skillsScore sa must nice * (70 / 100) + ai * (30 / 100)))) ∧
    mustHaveScore mustC3 saC3.matched_must_have_list = 50 ∧
    niceToHaveScore niceC3 saC3.matched_nice_to_have_list = 0 ∧
    skillsScore saC3 mustC3 niceC3 = 85 / 2 ∧
    (calcFitScore saC3 mustC3 niceC3 (some 60)).score = 47 := by
  refine ⟨rfl, ?_, ?_, ?_, ?_⟩
  · norm_num [mustHaveScore, totalWeight, matchedWeight, findSkill, mustC3, saC3]
  · norm_num [niceToHaveScore, totalWeight, matchedWeight, findSkill, niceC3, saC3]
  · norm_num [skillsScore, mustHaveScore, niceToHaveScore, totalWeight, matchedWeight,
      findSkill, mustC3, niceC3, saC3]
  · norm_num [calcFitScore, skillsScore, mustHaveScore, niceToHaveScore, totalWeight,
      matchedWeight, findSkill, pyInt, mustC3, niceC3, saC3]

/-! ## Claim C4 — default skill weights -/

/-- Must-have list with one weightless skill next to an explicitly weighted
one, so that the default value is observable in the aggregate. -/
def mustC4 : List SkillSpec := [⟨"Python", none⟩, ⟨"Kubernetes", some 10⟩]

/-- Match result for `mustC4`: the weightless skill matched. -/
def saC4 : SkillsAnalysis :=
  { must_have_matched := 1, must_have_total := 2
    nice_to_have_matched := 0, nice_to_have_total := 0
    matched_must_have_list := [⟨"Python", true, none, none⟩]
    matched_nice_to_have_list := [] }

/-- Claim C4 counterexample.  A weightless must-have skill is summed with
default weight 5 (`skill.get("weight", 5)`), not 8, in both the tier total
and the matched total; a weightless nice-to-have skill with default 3, not 5.
Observable in the final score: with `mustC4`, only Python matched and
holistic 0, the code returns 19, while defaults 8/5 would give 26. -/
theorem c4_counterexample :
    totalWeight 5 mustC4 = 15 ∧ ((15 : ℤ) ≠ 8 + 10) ∧
    matchedWeight 5 mustC4 saC4.matched_must_have_list = 5 ∧ ((5 : ℤ) ≠ 8) ∧
    totalWeight 3 [⟨"Docker", none⟩] = 3 ∧ ((3 : ℤ) ≠ 5) ∧
    (calcFitScore saC4 mustC4 [] (some 0)).score = 19 ∧
    min 100 (max 0 (pyInt ((8 / 18 * 100) * (85 / 100) * (70 / 100) + 0 * (30 / 100)))) = 26 ∧
    ((19 : ℤ) ≠ 26) := by
  refine ⟨by decide, by decide, by decide, by decide, by decide, by decide, ?_, ?_, by decide⟩
  · norm_num [calcFitScore, skillsScore, mustHaveScore, niceToHaveScore, totalWeight,
      matchedWeight, findSkill, pyInt, mustC4, saC4]
  · norm_num [pyInt]

/-- Number of match entries that actually contribute a weight: found in the
resume and resolving by name to a skill dict of the tier list. -/
def countResolvedMatches (skills : List SkillSpec) (ms : List MatchedSkill) : ℕ :=
  ms.countP (fun m => m.found_in_resume && (findSkill skills m.skill).isSome)

/-- A successful `findSkill` lookup returns an element of the list. -/
theorem findSkill_mem {skills : List SkillSpec} {name : String} {sp : SkillSpec}
    (h : findSkill skills name = some sp) : sp ∈ skills :=
  List.mem_of_find?_eq_some h

/-- On a tier list whose skills all lack an explicit weight, the tier total
is the default times the list length. -/
theorem totalWeight_all_default (d : ℤ) :
    ∀ skills : List SkillSpec, (∀ s ∈ skills, s.weight = none) →
      totalWeight d skills = d * skills.length := by
  intro skills
  induction skills with
  | nil => intro _; simp [totalWeight]
  | cons s rest ih =>
    intro h
    have hs : s.weight = none := h s (List.mem_cons_self s rest)
    have hrest := ih (fun x hx => h x (List.mem_cons_of_mem s hx))
    simp only [totalWeight, List.map_cons, List.sum_cons] at hrest ⊢
    rw [hs, hrest]
    simp only [Option.getD_none, List.length_cons]
    push_cast
    ring

/-- On a tier list whose skills all lack an explicit weight, the matched
total is the default times the number of contributing match entries. -/
theorem matchedWeight_all_default (d : ℤ) (skills : List SkillSpec) (ms : List MatchedSkill)
    (h : ∀ s ∈ skills, s.weight = none) :
    matchedWeight d skills ms = d * countResolvedMatches skills ms := by
  induction ms with
  | nil => simp [matchedWeight, countResolvedMatches]
  | cons m rest ih =>
    simp only [matchedWeight, List.map_cons, List.sum_cons] at ih ⊢
    simp only [countResolvedMatches, List.countP_cons] at ih ⊢
    by_cases hfound : m.found_in_resume
    · rcases hfind : findSkill skills m.skill with _ | sp
      · simp [hfound, hfind, ih]
      · have hsp : sp.weight = none := h sp (findSkill_mem hfind)
        simp only [hfound, hfind, hsp, Option.getD_none, if_true, Option.isSome_some,
          Bool.and_true, Bool.and_self] at ih ⊢
        rw [ih]
        push_cast
        ring
    · simp [hfound, ih]

/-- Claim C4 (amended): a skill with no explicit weight is given default
weight 5 when must-have and 3 when nice-to-have — not 8 and 5 — both when
summing the tier total and when summing the matched weight. -/
theorem c4_amended (must nice : List SkillSpec) (msM msN : List MatchedSkill)
    (hm : ∀ s ∈ must, s.weight = none) (hn : ∀ s ∈ nice, s.weight = none) :
    totalWeight 5 must = 5 * must.length ∧
    totalWeight 3 nice = 3 * nice.length ∧
    matchedWeight 5 must msM = 5 * countResolvedMatches must msM ∧
    matchedWeight 3 nice msN = 3 * countResolvedMatches nice msN :=
  ⟨totalWeight_all_default 5 must hm, totalWeight_all_default 3 nice hn,
    matchedWeight_all_default 5 must msM hm, matchedWeight_all_default 3 nice msN hn⟩

/-- Claim C4 witness: the amended statement instantiated at concrete lists. -/
theorem c4_amended_witness :
    (∀ s ∈ ([⟨"A", none⟩] : List SkillSpec), s.weight = none) ∧
    (∀ s ∈ ([⟨"B", none⟩] : List SkillSpec), s.weight = none) ∧
    (totalWeight 5 [⟨"A", none⟩] = 5 * ([⟨"A", none⟩] : List SkillSpec).length ∧
      totalWeight 3 [⟨"B", none⟩] = 3 * ([⟨"B", none⟩] : List SkillSpec).length ∧
      matchedWeight 5 [⟨"A", none⟩] [⟨"A", true, none, none⟩] =
        5 * countResolvedMatches [⟨"A", none⟩] [⟨"A", true, none, none⟩] ∧
      matchedWeight 3 [⟨"B", none⟩] [] = 3 * countResolvedMatches [⟨"B", none⟩] []) :=
  ⟨by decide, by decide,
    c4_amended [⟨"A", none⟩] [⟨"B", none⟩] [⟨"A", true, none, none⟩] []
      (by decide) (by decide)⟩

/-! ## Claim C8 — degraded oracles never hard-fail the scoring -/

/-- Claim C8: if the holistic oracle fails (`none`), the neutral score 50 is
substituted and the result is exactly the one a successful reply of 50 gives;
if the SkillMatcher fails entirely, the fallback analysis has empty matched
lists, both tier scores are 0, and `_calculate_fit_score` still returns a
well-formed `FitScore` computed from the holistic signal alone. -/
theorem c8_error_policy (sa : SkillsAnalysis) (must nice : List SkillSpec) (ai : ℚ) :
    calcFitScore sa must nice none = calcFitScore sa must nice (some 50) ∧
    (analyzeSkillsMatchFailure must nice).matched_must_have_list = [] ∧
    (analyzeSkillsMatchFailure must nice).matched_nice_to_have_list = [] ∧
    mustHaveScore must (analyzeSkillsMatchFailure must nice).matched_must_have_list = 0 ∧
    niceToHaveScore nice (analyzeSkillsMatchFailure must nice).matched_nice_to_have_list = 0 ∧
    (calcFitScore (analyzeSkillsMatchFailure must nice) must nice (some ai)).score =
      min 100 (max 0 (pyInt (ai * (30 / 100)))) := by
  refine ⟨rfl, rfl, rfl, ?_, ?_, ?_⟩
  · simp [mustHaveScore, matchedWeight, analyzeSkillsMatchFailure]
  · simp [niceToHaveScore, matchedWeight, analyzeSkillsMatchFailure]
  · simp [calcFitScore, skillsScore, mustHaveScore, niceToHaveScore, matchedWeight,
      analyzeSkillsMatchFailure]

/-! ## Claim C9 — the `weighted_skills_contributing` list -/

/-- Must-have skills for the ordering counterexample: both carry weight 9. -/
def mustC9 : List SkillSpec := [⟨"Python", some 9⟩, ⟨"SQL", some 9⟩]

/-- Match result whose list order (SQL before Python) differs from the
must-have list order (Python before SQL); both entries are found. -/
def saC9 : SkillsAnalysis :=
  { must_have_matched := 2, must_have_total := 2
    nice_to_have_matched := 0, nice_to_have_total := 0
    matched_must_have_list := [⟨"SQL", true, none, none⟩, ⟨"Python", true, none, none⟩]
    matched_nice_to_have_list := [] }

/-- Claim C9 counterexample.  `high_weight_skills` is built by iterating over
the skill-match result list, so with match results ordered SQL, Python the
code returns `["SQL", "Python"]`, while the claim's "original list order of
the must-have skills" requires `["Python", "SQL"]`. -/
theorem c9_counterexample :
    (calcFitScore saC9 mustC9 [] (some 50)).weighted_skills_contributing = ["SQL", "Python"] ∧
    (["SQL", "Python"] : List String) ≠ ["Python", "SQL"] := by
  exact ⟨by decide, by decide⟩

/-- Claim C9 (amended): `weighted_skills_contributing` has length at most 3
and contains only matched must-have skills whose resolved weight is ≥ 8,
taken in the order of the skill-match result list (not necessarily the order
of the must-have skill list), capped at 3. -/
theorem c9_amended (sa : SkillsAnalysis) (must nice : List SkillSpec) (ai : Option ℚ) :
    (calcFitScore sa must nice ai).weighted_skills_contributing =
      (highWeightSkills must sa.matched_must_have_list).take 3 ∧
    (calcFitScore sa must nice ai).weighted_skills_contributing.length ≤ 3 ∧
    ∀ s ∈ (calcFitScore sa must nice ai).weighted_skills_contributing,
      ∃ m ∈ sa.matched_must_have_list, m.skill = s ∧ m.found_in_resume = true ∧
        ∃ sp, findSkill must s = some sp ∧ 8 ≤ sp.weight.getD 5 := by
  refine ⟨rfl, ?_, ?_⟩
  · exact List.length_take_le 3 _
  · intro s hs
    have hs' : s ∈ highWeightSkills must sa.matched_must_have_list :=
      List.take_subset 3 _ hs
    simp only [highWeightSkills] at hs'
    rcases List.mem_filterMap.mp hs' with ⟨m, hm, hf⟩
    refine ⟨m, hm, ?_⟩
    by_cases hfound : m.found_in_resume
    · rcases hfind : findSkill must m.skill with _ | sp
      · simp [hfound, hfind] at hf
      · by_cases hw : 8 ≤ sp.weight.getD 5
        · have hms : m.skill = s := by
            simpa [hfound, hfind, hw] using hf
          exact ⟨hms, hfound, sp, hms ▸ hfind, hw⟩
        · simp [hfound, hfind, hw] at hf
    · simp [hfound] at hf

/-- Claim C9 witness: the amended membership property at a concrete input. -/
theorem c9_amended_witness :
    ∃ m ∈ saC9.matched_must_have_list, m.skill = "SQL" ∧ m.found_in_resume = true ∧
      ∃ sp, findSkill mustC9 "SQL" = some sp ∧ 8 ≤ sp.weight.getD 5 :=
  (c9_amended saC9 mustC9 [] (some 50)).2.2 "SQL" (by decide)

/-! ## Claim C1 — `recordOutcome` and duplicate filenames -/

/-- Tracker of a two-file batch after one outcome for `resume_a.pdf`. -/
def trackerC1a : Tracker := recordOutcome (freshTracker 2 0) "resume_a.pdf" "success" none 1

/-- The same tracker after a second outcome for the same filename. -/
def trackerC1b : Tracker := recordOutcome trackerC1a "resume_a.pdf" "success" none 2

/-- Claim C1 counterexample.  `update_screening_job_progress_by_job_id`
performs no duplicate check against `resume_statuses`: with `resume_a.pdf`
already present in the dedup list, a second call for the same
`(job_id, filename)` is not a no-op — it increments `current_batch_processed`
from 1 to 2 and `processed_resumes` again. -/
theorem c1_counterexample :
    "resume_a.pdf" ∈ trackerC1a.resume_statuses.map StatusEntry.filename ∧
    trackerC1a.current_batch_processed = 1 ∧
    trackerC1b.current_batch_processed = 2 ∧
    trackerC1b.processed_resumes = trackerC1a.processed_resumes + 1 ∧
    trackerC1b ≠ trackerC1a := by
  exact ⟨by decide, by decide, by decide, by decide, by decide⟩

/-- Claim C1 (amended): `recordOutcome` is not idempotent per filename.
Every call — whether or not the filename already appears in
`resume_statuses` — increments `current_batch_processed` and
`processed_resumes` by exactly 1 and appends a new dedup entry, so two calls
with the same `(jobId, filename)` increment the processed counters by
exactly 2. -/
theorem c1_amended (t : Tracker) (fn st : String) (sid : Option String) (n₁ n₂ : ℕ) :
    (recordOutcome t fn st sid n₁).current_batch_processed = t.current_batch_processed + 1 ∧
    (recordOutcome t fn st sid n₁).processed_resumes = t.processed_resumes + 1 ∧
    (recordOutcome t fn st sid n₁).resume_statuses = t.resume_statuses ++ [⟨fn, st, n₁, sid⟩] ∧
    (recordOutcome (recordOutcome t fn st sid n₁) fn st sid n₂).current_batch_processed =
      t.current_batch_processed + 2 ∧
    (recordOutcome (recordOutcome t fn st sid n₁) fn st sid n₂).processed_resumes =
      t.processed_resumes + 2 :=
  ⟨rfl, rfl, rfl, rfl, rfl⟩

/-! ## Claim C2 — the `processed ≤ total` invariant and the derived status -/

/-- Tracker of a one-file batch that has received two outcome records. -/
def trackerC2 : Tracker :=
  recordOutcome (recordOutcome (freshTracker 1 0) "a.pdf" "success" none 1) "b.pdf" "failed" none 2

/-- Claim C2 counterexample.  The state reached from a locked batch of 1 by
two `recordOutcome` calls is reachable and has `current_batch_processed = 2 >
1 = current_batch_total`, so `processed ≤ total` does not hold in every
reachable state; moreover its derived status is `completed` even though
`processed ≠ total`, so the "iff processed == total" direction fails too. -/
theorem c2_counterexample :
    ReachableTracker trackerC2 ∧
    trackerC2.current_batch_total = 1 ∧
    trackerC2.current_batch_processed = 2 ∧
    ¬(trackerC2.current_batch_processed ≤ trackerC2.current_batch_total) ∧
    (currentBatchSnapshot (some trackerC2)).status = "completed" ∧
    trackerC2.current_batch_processed ≠ trackerC2.current_batch_total := by
  refine ⟨?_, by decide, by decide, by decide, by decide, by decide⟩
  exact ReachableTracker.record _ _ _ _ _
    (ReachableTracker.record _ _ _ _ _ (ReachableTracker.init 1 0))

/-- Branch structure of the snapshot's derived status: `completed` when the
locked total has been reached, `processing` when some progress exists,
`pending` otherwise, `no_resumes_in_queue` without an active batch. -/
theorem snapshot_status_eq (t : Tracker) :
    (currentBatchSnapshot (some t)).status =
      if 0 < t.current_batch_total then
        if t.current_batch_total ≤ t.current_batch_processed then "completed"
        else if 0 < t.current_batch_processed then "processing" else "pending"
      else "no_resumes_in_queue" := by
  simp only [currentBatchSnapshot]
  by_cases h0 : 0 < t.current_batch_total
  · rw [if_pos h0, if_pos h0]
    by_cases hle : t.current_batch_total ≤ t.current_batch_processed
    · rw [if_pos (show max 0 ((t.current_batch_total : ℤ)
          - (t.current_batch_processed : ℤ)) = 0 by omega), if_pos hle]
    · rw [if_neg (show ¬ max 0 ((t.current_batch_total : ℤ)
          - (t.current_batch_processed : ℤ)) = 0 by omega), if_neg hle]
      by_cases hp : 0 < t.current_batch_processed
      · rw [if_pos hp, if_pos hp]
      · rw [if_neg hp, if_neg hp]
  · rw [if_neg h0, if_neg h0]

/-- Branch structure of the snapshot's reported percentage. -/
theorem snapshot_pct_eq (t : Tracker) :
    (currentBatchSnapshot (some t)).progress_percentage =
      if 0 < t.current_batch_total then
        if t.current_batch_total ≤ t.current_batch_processed then 100
        else min 100 (pyInt ((t.current_batch_processed : ℚ)
          / (t.current_batch_total : ℚ) * 100))
      else 0 := by
  simp only [currentBatchSnapshot]
  by_cases h0 : 0 < t.current_batch_total
  · rw [if_pos h0, if_pos h0]
    by_cases hle : t.current_batch_total ≤ t.current_batch_processed
    · rw [if_pos (show max 0 ((t.current_batch_total : ℤ)
          - (t.current_batch_processed : ℤ)) = 0 by omega), if_pos hle]
    · rw [if_neg (show ¬ max 0 ((t.current_batch_total : ℤ)
          - (t.current_batch_processed : ℤ)) = 0 by omega), if_neg hle]
      by_cases hp : 0 < t.current_batch_processed
      · rw [if_pos hp]
      · rw [if_neg hp]
  · rw [if_neg h0, if_neg h0]

/-- Branch structure of the snapshot's `remaining` field. -/
theorem snapshot_remaining_eq (t : Tracker) :
    (currentBatchSnapshot (some t)).remaining =
      if 0 < t.current_batch_total then
        max 0 ((t.current_batch_total : ℤ) - (t.current_batch_processed : ℤ))
      else 0 := by
  simp only [currentBatchSnapshot]
  by_cases h0 : 0 < t.current_batch_total
  · rw [if_pos h0, if_pos h0]
    by_cases hle : t.current_batch_total ≤ t.current_batch_processed
    · rw [if_pos (show max 0 ((t.current_batch_total : ℤ)
          - (t.current_batch_processed : ℤ)) = 0 by omega)]
    · rw [if_neg (show ¬ max 0 ((t.current_batch_total : ℤ)
          - (t.current_batch_processed : ℤ)) = 0 by omega)]
      by_cases hp : 0 < t.current_batch_processed
      · rw [if_pos hp]
      · rw [if_neg hp]
  · rw [if_neg h0, if_neg h0]

/-- Claim C2 (amended): `recordOutcome` increments `current_batch_processed`
unconditionally, so `processed` may exceed `total`; in every reachable state
the derived status equals `completed` if and only if
`current_batch_total > 0` and `current_batch_processed ≥ current_batch_total`
(not `= total`). -/
theorem c2_amended (t : Tracker) (_hre : ReachableTracker t) :
    (currentBatchSnapshot (some t)).status = "completed" ↔
      0 < t.current_batch_total ∧ t.current_batch_total ≤ t.current_batch_processed := by
  rw [snapshot_status_eq]
  by_cases h0 : 0 < t.current_batch_total
  · rw [if_pos h0]
    by_cases hle : t.current_batch_total ≤ t.current_batch_processed
    · rw [if_pos hle]
      exact ⟨fun _ => ⟨h0, hle⟩, fun _ => rfl⟩
    · rw [if_neg hle]
      by_cases hp : 0 < t.current_batch_processed
      · rw [if_pos hp]
        exact ⟨fun hc => absurd hc (by decide), fun h => absurd h.2 hle⟩
      · rw [if_neg hp]
        exact ⟨fun hc => absurd hc (by decide), fun h => absurd h.2 hle⟩
  · rw [if_neg h0]
    exact ⟨fun hc => absurd hc (by decide), fun h => absurd h.1 h0⟩

/-- Claim C2 witness: the amended equivalence at the freshly created tracker
of a one-file batch (status `pending`, `0 < 1` but not `1 ≤ 0`). -/
theorem c2_amended_witness :
    (currentBatchSnapshot (some (freshTracker 1 0))).status = "completed" ↔
      0 < (freshTracker 1 0).current_batch_total ∧
        (freshTracker 1 0).current_batch_total ≤ (freshTracker 1 0).current_batch_processed :=
  c2_amended (freshTracker 1 0) (ReachableTracker.init 1 0)

/-! ## Claim C5 — the progress snapshot -/

/-- Python `int(processed / total * 100)` equals natural-number division
`(100 * processed) / total` (also when `total = 0`: Lean's and Python's
guarded branch both yield 0). -/
theorem pyInt_pct (p t : ℕ) :
    pyInt ((p : ℚ) / (t : ℚ) * 100) = ((100 * p / t : ℕ) : ℤ) := by
  have hq : (p : ℚ) / (t : ℚ) * 100 = ((100 * p : ℕ) : ℚ) / ((t : ℕ) : ℚ) := by
    push_cast
    ring
  rw [pyInt, if_pos (by positivity), hq, Rat.floor_natCast_div_natCast]
  exact_mod_cast rfl

/-- Tracker of a three-file batch with two outcomes recorded. -/
def trackerC5 : Tracker :=
  recordOutcome (recordOutcome (freshTracker 3 0) "a.pdf" "success" none 1) "b.pdf" "failed" none 2

/-- Claim C5 counterexample.  With `processed = 2`, `total = 3` the code
reports `int(2/3*100) = 66`, while the claim's
`min(100, round(processed/total × 100))` is 67: the percentage is truncated,
not rounded. -/
theorem c5_counterexample :
    ReachableTracker trackerC5 ∧
    trackerC5.current_batch_total = 3 ∧
    trackerC5.current_batch_processed = 2 ∧
    (currentBatchSnapshot (some trackerC5)).progress_percentage = 66 ∧
    min 100 (round ((2 : ℚ) / 3 * 100)) = 67 ∧
    (66 : ℤ) ≠ 67 := by
  have h3 : trackerC5.current_batch_total = 3 := by decide
  have h2 : trackerC5.current_batch_processed = 2 := by decide
  refine ⟨?_, h3, h2, ?_, ?_, by decide⟩
  · exact ReachableTracker.record _ _ _ _ _
      (ReachableTracker.record _ _ _ _ _ (ReachableTracker.init 3 0))
  · rw [snapshot_pct_eq, h3, h2]
    norm_num [pyInt]
  · norm_num [round_eq]

/-- Claim C5 (amended): for every tracker state the snapshot satisfies
`percentage = min(100, ⌊processed/total × 100⌋)` — floor, not round — when
`total > 0` and `percentage = 0` when `total = 0` (here written with the
equal natural-number division `100*processed/total`);
`remaining = max(0, total − processed)`; and the percentage never
exceeds 100.  Without a tracker the snapshot reports 0. -/
theorem c5_amended (t : Tracker) :
    ((currentBatchSnapshot (some t)).progress_percentage =
      if t.current_batch_total = 0 then 0
      else min 100 ((100 * t.current_batch_processed / t.current_batch_total : ℕ) : ℤ)) ∧
    (currentBatchSnapshot (some t)).remaining =
      max 0 ((t.current_batch_total : ℤ) - (t.current_batch_processed : ℤ)) ∧
    (currentBatchSnapshot (some t)).progress_percentage ≤ 100 ∧
    (currentBatchSnapshot none).progress_percentage = 0 := by
  refine ⟨?_, ?_, ?_, rfl⟩
  · rw [snapshot_pct_eq]
    by_cases h0 : 0 < t.current_batch_total
    · rw [if_pos h0, if_neg (by omega : ¬ t.current_batch_total = 0)]
      by_cases hle : t.current_batch_total ≤ t.current_batch_processed
      · rw [if_pos hle]
        have hdiv : 100 ≤ 100 * t.current_batch_processed / t.current_batch_total := by
          rw [Nat.le_div_iff_mul_le h0]
          omega
        omega
      · rw [if_neg hle, pyInt_pct]
    · rw [if_neg h0, if_pos (by omega : t.current_batch_total = 0)]
  · rw [snapshot_remaining_eq]
    by_cases h0 : 0 < t.current_batch_total
    · rw [if_pos h0]
    · rw [if_neg h0]
      omega
  · rw [snapshot_pct_eq]
    by_cases h0 : 0 < t.current_batch_total
    · rw [if_pos h0]
      by_cases hle : t.current_batch_total ≤ t.current_batch_processed
      · rw [if_pos hle]
      · rw [if_neg hle]
        exact min_le_left _ _
    · rw [if_neg h0]
      omega

/-! ## Claim C6 — new-batch detection baseline -/

/-- First batch of two files, both processed (all-time processed 2). -/
def trackerC6a : Tracker :=
  recordOutcome (recordOutcome (freshTracker 2 0) "r1.pdf" "success" none 1)
    "r2.pdf" "success" none 2

/-- Tracker after new-batch detection with 5 files in the store: this is the
claim's concrete scenario, locking `current_batch_total = 3`. -/
def trackerC6b : Tracker := initOrIncrementBatch (some trackerC6a) 5 3

/-- The second batch fully processed: `current_batch_processed = 3`,
all-time `processed_resumes = 5`. -/
def trackerC6c : Tracker :=
  recordOutcome (recordOutcome (recordOutcome trackerC6b "r3.pdf" "success" none 4)
    "r4.pdf" "success" none 5) "r5.pdf" "failed" none 6

/-- Tracker after a third detection with 6 files in the store. -/
def trackerC6d : Tracker := initOrIncrementBatch (some trackerC6c) 6 7

/-- Claim C6 evaluated on the code.  The concrete scenario of the claim holds
(5 files, 2 processed all-time ⇒ total locked to 3, counters reset, new
`batch_start_time`), but only because after the *first* batch
`current_batch_processed` and the all-time `processed_resumes` coincide:
the source subtracts `current_batch_processed`, not the all-time count.
One batch later the two baselines differ and the code locks
`current_batch_total = 6 − 3 = 3` where the claim requires
`6 − processed_resumes = 6 − 5 = 1` — with only one new file in the store the
locked total 3 can never be reached. -/
theorem c6_code_bug_eval :
    ReachableTracker trackerC6d ∧
    trackerC6b.current_batch_total = 3 ∧
    trackerC6b.current_batch_processed = 0 ∧
    trackerC6b.current_batch_successful = 0 ∧
    trackerC6b.current_batch_failed = 0 ∧
    trackerC6b.batch_start_time = some 3 ∧
    trackerC6c.current_batch_processed = 3 ∧
    trackerC6c.processed_resumes = 5 ∧
    trackerC6d.current_batch_total = 3 ∧
    6 - trackerC6c.processed_resumes = 1 ∧
    trackerC6d.current_batch_total ≠ 6 - trackerC6c.processed_resumes := by
  refine ⟨?_, by decide, by decide, by decide, by decide, by decide, by decide, by decide,
    by decide, by decide, by decide⟩
  exact ReachableTracker.newBatch _ _ _
    (ReachableTracker.record _ _ _ _ _ (ReachableTracker.record _ _ _ _ _
      (ReachableTracker.record _ _ _ _ _ (ReachableTracker.newBatch _ _ _
        (ReachableTracker.record _ _ _ _ _ (ReachableTracker.record _ _ _ _ _
          (ReachableTracker.init 2 0)))))))

/-! ## Claim C7 — batch failure policy of `screen_resumes` -/

/-- A job document for the endpoint evaluations. -/
def jobC7 : JobData := ⟨"job-1", "description", [], []⟩

/-- The report the successfully parsed resume would produce. -/
def reportC7 : CandidateReport := ⟨"Jane Doe", "ok.pdf", ⟨47, []⟩⟩

/-- A resume whose `parse_document` call raises (k = 1 parse failure). -/
def itemFailC7 : ResumeItem := ⟨"bad.pdf", none, none, none⟩

/-- A resume that parses and screens successfully. -/
def itemOkC7 : ResumeItem := ⟨"ok.pdf", none, some "parsed text", some reportC7⟩

/-- Claim C7 evaluated on the code.  The per-resume loop itself implements
the claimed policy (the two-resume batch with one parse failure yields
exactly one report and no exception), but the endpoint never reaches it:
`config.py` declares no `MAX_RESUMES_PER_BATCH` field on `Settings`, so the
batch-size check of line 562 raises `AttributeError` for every non-empty
batch, which the outer handler converts to HTTP 500 before a single resume
is uploaded or parsed. -/
theorem c7_code_bug_eval :
    screenResumes "job-1" (some jobC7) [itemFailC7, itemOkC7] =
      (.error ⟨500, "Settings object has no attribute MAX_RESUMES_PER_BATCH"⟩, []) ∧
    runBatch "job-1" [itemFailC7, itemOkC7] =
      (none, [Effect.upload "job-1/bad.pdf", Effect.upload "job-1/ok.pdf",
        Effect.save reportC7], [reportC7]) := by
  exact ⟨rfl, rfl⟩

/-! ## Claim C10 — empty batch is rejected up front -/

/-- Claim C10: an empty resume list fails with HTTP 400
("At least one resume is required") before any upload, parse, screening or
persistence; no effect is performed, for any job. -/
theorem c10_empty_batch (jobId : String) (jobData : Option JobData) :
    screenResumes jobId jobData [] =
      (.error ⟨400, "At least one resume is required"⟩, []) := rfl

end AIResumeAgent
